import Mathlib

/-
Shallow embedding of the SimulatorPacman core (src/main.cpp) and proofs
about its maze model, sprite movement, agent AI, collision and scoring
logic.  Machine ints are modelled as Lean `Int` (positions, scores) or
`Nat` (bit-packed maze rows; all row constants fit in 28 bits, and the
32-bit complement `~(1 << x)` is modelled as `0xFFFFFFFF ^^^ (1 <<< x)`).
C integer division truncates toward zero, so screen-to-tile conversion
uses `Int.tdiv`.  C++ code whose behaviour is undefined (reading the
uninitialized sample points of `Maze::IsFloorAdjacentScreenPos` when the
direction is not one of the four cardinal constants) is modelled with
`Option`: `none` marks the undefined case.
-/

/-- Direction constant NORTH = 0x1 (src/main.cpp line 19). -/
def NORTH : Nat := 0x1

/-- Direction constant EAST = 0x2 (src/main.cpp line 20). -/
def EAST : Nat := 0x2

/-- Direction constant SOUTH = 0x4 (src/main.cpp line 21). -/
def SOUTH : Nat := 0x4

/-- Direction constant WEST = 0x8 (src/main.cpp line 22). -/
def WEST : Nat := 0x8

/-- Maze width in tiles (src/main.cpp line 28). -/
def WIDTH : Int := 28

/-- Maze height in tiles (src/main.cpp line 29). -/
def HEIGHT : Int := 30

/-- Tile side length in pixels (src/main.cpp line 35). -/
def TILE_SIZE : Int := 8

/-- AI variant tag for the chaser (src/main.cpp line 38). -/
def BLINKY_AI : Nat := 1

/-- AI variant tag for the ambusher (src/main.cpp line 39). -/
def PINKY_AI : Nat := 2

/-- AI variant tag for the flanker (src/main.cpp line 40). -/
def INKY_AI : Nat := 3

/-- AI variant tag for the patroller (src/main.cpp line 41). -/
def CLYDE_AI : Nat := 4

/-- Game state SPLASH_SCREEN = 0 (src/main.cpp line 44). -/
def SPLASH_SCREEN : Nat := 0

/-- Game state STARTUP = 2 (src/main.cpp line 46). -/
def STARTUP : Nat := 2

/-- Game state PLAY = 3 (src/main.cpp line 47). -/
def PLAY : Nat := 3

/-- Game state CONTINUE = 4 (src/main.cpp line 48). -/
def CONTINUE : Nat := 4

/-- Game state NEXT_LEVEL = 5 (src/main.cpp line 49). -/
def NEXT_LEVEL : Nat := 5

/-- Game state DEAD = 6 (src/main.cpp line 50). -/
def DEAD : Nat := 6

/-- Game state GAME_OVER = 7 (src/main.cpp line 51). -/
def GAME_OVER : Nat := 7

/-- The `Position` struct: a pair of `int` coordinates (src/main.cpp lines 63-67). -/
structure Position where
  x : Int
  y : Int
deriving DecidableEq, Repr

/-- State of the `Maze` object: the bit-packed floor rows `_maze`, the
bit-packed pellet rows `_pellets`, the shared `redrawStack` (modelled as a
list with the head as top of stack) and the construction-time `maxPellets`
(src/main.cpp lines 489-522). -/
structure Maze where
  maze : List Nat
  pellets : List Nat
  redrawStack : List Position
  maxPellets : Int
deriving DecidableEq, Repr

/-- `Maze::IsInBounds` (src/main.cpp lines 696-699). -/
def Maze.IsInBounds (x y : Int) : Bool :=
  decide (x > -1 ∧ x < WIDTH ∧ y > -1 ∧ y < HEIGHT)

/-- `Maze::IsFloor` (src/main.cpp lines 703-706): false out of bounds, else
bit `x` of `_maze[y]`. -/
def Maze.IsFloor (m : Maze) (x y : Int) : Bool :=
  Maze.IsInBounds x y && ((((m.maze.getD y.toNat 0) >>> x.toNat) &&& 1) == 1)

/-- `Maze::ScreenPosToTilePos` (src/main.cpp lines 861-883): C integer
division of both coordinates by `TILE_SIZE` (truncation toward zero). -/
def Maze.ScreenPosToTilePos (p : Position) : Position :=
  ⟨Int.tdiv p.x TILE_SIZE, Int.tdiv p.y TILE_SIZE⟩

/-- The two sample points `adjacentPosA` / `adjacentPosB` set by
`Maze::IsFloorAdjacentScreenPos` (src/main.cpp lines 777-815).  The if/else
chain covers only the four cardinal constants; for any other direction the
points are read uninitialized in the C++ source, modelled here as `none`. -/
def IsFloorAdjacentScreenPosPts (screenPos : Position) (direction : Nat) :
    Option (Position × Position) :=
  if direction = NORTH then
    some (⟨screenPos.x, screenPos.y - 1⟩,
          ⟨screenPos.x + TILE_SIZE - 1, screenPos.y - 1⟩)
  else if direction = EAST then
    some (⟨screenPos.x + TILE_SIZE, screenPos.y⟩,
          ⟨screenPos.x + TILE_SIZE, screenPos.y + TILE_SIZE - 1⟩)
  else if direction = SOUTH then
    some (⟨screenPos.x, screenPos.y + TILE_SIZE⟩,
          ⟨screenPos.x + TILE_SIZE - 1, screenPos.y + TILE_SIZE⟩)
  else if direction = WEST then
    some (⟨screenPos.x - 1, screenPos.y⟩,
          ⟨screenPos.x - 1, screenPos.y + TILE_SIZE - 1⟩)
  else
    none

/-- `Maze::IsFloorAdjacentScreenPos` (src/main.cpp lines 742-823), Option
valued: `none` when the direction is not cardinal (undefined behaviour in
the source), otherwise whether both sample points convert to floor tiles. -/
def Maze.IsFloorAdjacentScreenPosOpt (m : Maze) (screenPos : Position)
    (direction : Nat) : Option Bool :=
  (IsFloorAdjacentScreenPosPts screenPos direction).map fun pts =>
    let tilePosA := Maze.ScreenPosToTilePos pts.1
    let tilePosB := Maze.ScreenPosToTilePos pts.2
    m.IsFloor tilePosA.x tilePosA.y && m.IsFloor tilePosB.x tilePosB.y

/-- Total wrapper for `Maze::IsFloorAdjacentScreenPos` used by callers that
always pass a cardinal direction (the enemy AI passes only the four
constants, src/main.cpp lines 1479-1482). -/
def Maze.IsFloorAdjacentScreenPos (m : Maze) (screenPos : Position)
    (direction : Nat) : Bool :=
  (m.IsFloorAdjacentScreenPosOpt screenPos direction).getD false

/-- `Maze::IsPellet` (src/main.cpp lines 826-829). -/
def Maze.IsPellet (m : Maze) (x y : Int) : Bool :=
  Maze.IsInBounds x y && ((((m.pellets.getD y.toNat 0) >>> x.toNat) &&& 1) == 1)

/-- `Maze::TryRemovePellet` (src/main.cpp lines 834-847): returns whether a
pellet was present and the maze with the pellet bit cleared
(`_pellets[y] &= ~(0x1 << x)` on 32-bit ints). -/
def Maze.TryRemovePellet (m : Maze) (x y : Int) : Bool × Maze :=
  let hasPellet := m.IsPellet x y
  if hasPellet then
    let clearedRow := (m.pellets.getD y.toNat 0) &&& (0xFFFFFFFF ^^^ (1 <<< x.toNat))
    (hasPellet, { m with pellets := m.pellets.set y.toNat clearedRow })
  else
    (hasPellet, m)

/-- `Maze::TryRemovePelletScreenPos` (src/main.cpp lines 851-857). -/
def Maze.TryRemovePelletScreenPos (m : Maze) (screenPos : Position) :
    Bool × Maze :=
  let tilePos := Maze.ScreenPosToTilePos screenPos
  m.TryRemovePellet tilePos.x tilePos.y

/-- `BaseGameSprite::UpdatePosition` (src/main.cpp lines 192-226): one-pixel
move in the given cardinal direction followed by the horizontal teleport. -/
def UpdatePosition (p : Position) (direction : Nat) : Position :=
  let q :=
    if direction = NORTH then { p with y := p.y - 1 }
    else if direction = EAST then { p with x := p.x + 1 }
    else if direction = SOUTH then { p with y := p.y + 1 }
    else if direction = WEST then { p with x := p.x - 1 }
    else p
  if q.x = 0 then { q with x := (WIDTH - 1) * TILE_SIZE }
  else if q.x = (WIDTH - 1) * TILE_SIZE then { q with x := 0 }
  else q

/-- `BaseGameSprite::HasCollided` (src/main.cpp lines 323-327): bounding box
test between two TILE_SIZE sized sprites at the given positions. -/
def HasCollided (p q : Position) : Bool :=
  decide (p.x < q.x + TILE_SIZE ∧ p.x + TILE_SIZE > q.x ∧
          p.y < q.y + TILE_SIZE ∧ p.y + TILE_SIZE > q.y)

/-- The `_maze` rows set by `Maze::SetClassicMaze` (src/main.cpp lines 598-630). -/
def classicMazeRows : List Nat :=
  [0x0, 0x0, 0x7FF9FFE, 0x4209042, 0x4209042, 0x4209042, 0x7FFFFFE,
   0x4240242, 0x4240242, 0x7E79E7E, 0x0209040, 0x0209040, 0x027FE40,
   0x0240240, 0xFFC03FF, 0x0240240, 0x027FE40, 0x0240240, 0x0240240,
   0x7FF9FFE, 0x4209042, 0x4209042, 0x73FFFCE, 0x1240248, 0x1240248,
   0x7E79E7E, 0x4009002, 0x4009002, 0x7FFFFFE, 0x0]

/-- The `_pellets` rows set by `Maze::SetPelletsClassicMaze` (src/main.cpp
lines 633-665). -/
def classicPelletRows : List Nat :=
  [0x0, 0x0, 0x7FF9FFE, 0x4209042, 0x4209042, 0x4209042, 0x7FFFFFE,
   0x4240242, 0x4240242, 0x7E79E7E, 0x0200040, 0x0200040, 0x0200040,
   0x0200040, 0x0200040, 0x0200040, 0x0200040, 0x0200040, 0x0200040,
   0x7FF9FFE, 0x4209042, 0x4209042, 0x73FDFCE, 0x1240248, 0x1240248,
   0x7E79E7E, 0x4009002, 0x4009002, 0x7FFFFFE, 0x0]

/-- `Maze::GetPelletCount` (src/main.cpp lines 668-683): sum of `IsPellet`
over the whole grid. -/
def Maze.GetPelletCount (m : Maze) : Int :=
  ((List.range 28).map fun i =>
    ((List.range 30).map fun j =>
      if m.IsPellet (Int.ofNat i) (Int.ofNat j) then (1 : Int) else 0).sum).sum

/-- The maze as built by the `Maze` constructor (src/main.cpp lines 687-693):
classic layout, classic pellets, `maxPellets` from `GetPelletCount`. -/
def classicMazeBase : Maze :=
  { maze := classicMazeRows, pellets := classicPelletRows,
    redrawStack := [], maxPellets := 0 }

/-- The classic maze with `maxPellets` recorded at construction time. -/
def classicMaze : Maze :=
  { classicMazeBase with maxPellets := classicMazeBase.GetPelletCount }

/- ------------------------------------------------------------------ -/
/- Claim C5: sprite one-step move and horizontal wraparound            -/
/- ------------------------------------------------------------------ -/

/-- Modelled from the spec's words for C5: mutate the position by exactly
one pixel in the requested cardinal direction. -/
def specStepOnePixel (p : Position) (direction : Nat) : Position :=
  if direction = NORTH then { p with y := p.y - 1 }
  else if direction = EAST then { p with x := p.x + 1 }
  else if direction = SOUTH then { p with y := p.y + 1 }
  else if direction = WEST then { p with x := p.x - 1 }
  else p

/-- Modelled from the spec's words for C5: horizontal wraparound applied to
the post-move position; only the x-axis is examined. -/
def specTeleportX (p : Position) : Position :=
  if p.x = 0 then { p with x := (WIDTH - 1) * TILE_SIZE }
  else if p.x = (WIDTH - 1) * TILE_SIZE then { p with x := 0 }
  else p

/-- Counterexample to claim C5 as stated: moving WEST from x = 0 gives a
post-move x of -1, which matches neither teleport condition, so the final
x is -1, not (WIDTH-1)*TILE_SIZE = 216. -/
theorem c5_counterexample :
    UpdatePosition ⟨0, 16⟩ WEST = ⟨-1, 16⟩ ∧
    UpdatePosition ⟨0, 16⟩ WEST ≠ ⟨(WIDTH - 1) * TILE_SIZE, 16⟩ := by
  constructor
  · rfl
  · decide

/-- Claim C5 (amended): the one-step move is the one-pixel step followed by
the unconditional x-axis wraparound that snaps a post-move x of 0 to
(WIDTH-1)*TILE_SIZE and a post-move x of (WIDTH-1)*TILE_SIZE to 0; in
particular moving WEST from x = 1 (where the post-move x is 0) yields
x = (WIDTH-1)*TILE_SIZE, and moving EAST from x = (WIDTH-1)*TILE_SIZE - 1
(where the post-move x is (WIDTH-1)*TILE_SIZE) yields x = 0. -/
theorem c5_amended :
    (∀ (p : Position) (d : Nat),
        UpdatePosition p d = specTeleportX (specStepOnePixel p d)) ∧
    (∀ y : Int, UpdatePosition ⟨1, y⟩ WEST = ⟨(WIDTH - 1) * TILE_SIZE, y⟩) ∧
    (∀ y : Int, UpdatePosition ⟨(WIDTH - 1) * TILE_SIZE - 1, y⟩ EAST = ⟨0, y⟩) := by
  refine ⟨fun p d => rfl, fun y => ?_, fun y => ?_⟩
  · simp [UpdatePosition, WEST, NORTH, EAST, SOUTH, WIDTH, TILE_SIZE]
  · simp [UpdatePosition, WEST, NORTH, EAST, SOUTH, WIDTH, TILE_SIZE]

/- ------------------------------------------------------------------ -/
/- Claims C6 / C7: pellet removal                                      -/
/- ------------------------------------------------------------------ -/

/-- Reading bit `k` of a row with the source's `(row >> k) & 1` idiom agrees
with `Nat.testBit`. -/
theorem bitget_eq_testBit (n k : Nat) : (((n >>> k) &&& 1) == 1) = n.testBit k := by
  rw [Bool.eq_iff_iff]
  simp [Nat.and_one_is_mod, Nat.shiftRight_eq_div_pow, Nat.testBit_to_div_mod]

/-- Clearing bit `k` with the 32-bit `&= ~(1 << k)` idiom makes bit `k` zero. -/
theorem cleared_bit (n k : Nat) (hk : k < 32) :
    (n &&& (0xFFFFFFFF ^^^ (1 <<< k))).testBit k = false := by
  rw [Nat.testBit_land, Nat.testBit_xor, Nat.one_shiftLeft,
      show (0xFFFFFFFF : Nat) = 2 ^ 32 - 1 from rfl,
      Nat.testBit_two_pow_sub_one, Nat.testBit_two_pow_self]
  simp [hk]

/-- The boolean returned by `TryRemovePellet` is exactly the prior `IsPellet`. -/
theorem tryRemovePellet_fst (m : Maze) (x y : Int) :
    (m.TryRemovePellet x y).1 = m.IsPellet x y := by
  by_cases h : m.IsPellet x y <;> simp [Maze.TryRemovePellet, h]

/-- After `TryRemovePellet x y` there is no pellet left at `(x, y)`. -/
theorem isPellet_after_remove (m : Maze) (x y : Int) :
    ((m.TryRemovePellet x y).2).IsPellet x y = false := by
  by_cases h : m.IsPellet x y = true
  · have hsplit := (Bool.and_eq_true _ _).mp h
    have hib : Maze.IsInBounds x y = true := hsplit.1
    have hbit : (m.pellets.getD y.toNat 0).testBit x.toNat = true := by
      have hb := hsplit.2
      rwa [bitget_eq_testBit] at hb
    have hlen : y.toNat < m.pellets.length := by
      by_contra hlen
      push_neg at hlen
      have hzero : m.pellets.getD y.toNat 0 = 0 := by
        rw [List.getD_eq_getElem?_getD, List.getElem?_eq_none (by omega)]
        rfl
      rw [hzero, Nat.zero_testBit] at hbit
      exact Bool.false_ne_true hbit
    have hx32 : x.toNat < 32 := by
      have hb := of_decide_eq_true hib
      unfold WIDTH HEIGHT at hb
      omega
    simp only [Maze.TryRemovePellet, h, if_true]
    unfold Maze.IsPellet
    have hrow : ((m.pellets.set y.toNat
        ((m.pellets.getD y.toNat 0) &&& (0xFFFFFFFF ^^^ (1 <<< x.toNat)))).getD y.toNat 0)
        = (m.pellets.getD y.toNat 0) &&& (0xFFFFFFFF ^^^ (1 <<< x.toNat)) := by
      simp [List.getD_eq_getElem?_getD, List.getElem?_set_self hlen]
    simp only [hrow, bitget_eq_testBit, cleared_bit _ _ hx32, Bool.and_false]
  · have hf : m.IsPellet x y = false := by
      cases hval : m.IsPellet x y
      · rfl
      · exact absurd hval h
    simp [Maze.TryRemovePellet, hf]

/-- Claim C6: TryRemovePellet returns true exactly when a pellet was present
at the tile before the call, and a second call at the same tile returns
false (idempotence of removal). -/
theorem c6_remove_pellet_idempotent : ∀ (m : Maze) (x y : Int),
    (m.TryRemovePellet x y).1 = m.IsPellet x y ∧
    (((m.TryRemovePellet x y).2).TryRemovePellet x y).1 = false := by
  intro m x y
  refine ⟨tryRemovePellet_fst m x y, ?_⟩
  rw [tryRemovePellet_fst]
  exact isPellet_after_remove m x y

/-- Pellet removal never touches the floor/wall bitmask. -/
theorem tryRemovePellet_maze_eq (m : Maze) (x y : Int) :
    ((m.TryRemovePellet x y).2).maze = m.maze := by
  by_cases h : m.IsPellet x y <;> simp [Maze.TryRemovePellet, h]

/-- Claim C7: for every in-bounds tile, `IsFloor` after any `TryRemovePellet`
call (at that tile or any other) equals its value before the call. -/
theorem c7_floor_unaffected : ∀ (m : Maze) (x y col row : Int),
    Maze.IsInBounds col row = true →
    ((m.TryRemovePellet x y).2).IsFloor col row = m.IsFloor col row := by
  intro m x y col row _
  unfold Maze.IsFloor
  rw [tryRemovePellet_maze_eq]

/-- Witness for C7 at a concrete in-bounds tile of the classic maze. -/
theorem c7_floor_unaffected_witness :
    ((classicMazeBase.TryRemovePellet 1 2).2).IsFloor 5 6 = classicMazeBase.IsFloor 5 6 :=
  c7_floor_unaffected classicMazeBase 1 2 5 6 (by decide)

/- ------------------------------------------------------------------ -/
/- Claim C8: bounding-box collision                                    -/
/- ------------------------------------------------------------------ -/

/-- Modelled from the spec's words for C8: two length-TILE_SIZE intervals
strictly overlap when the larger left end lies strictly left of the smaller
right end. -/
def StrictOverlapAxis (a b : Int) : Prop :=
  max a b < min (a + TILE_SIZE) (b + TILE_SIZE)

/-- Claim C8: HasCollided is true exactly when the TILE_SIZE square boxes
strictly overlap on both axes, and positions differing by exactly TILE_SIZE
on one axis (touching edges) never collide. -/
theorem c8_collision_strict_overlap :
    (∀ p q : Position,
        HasCollided p q = true ↔ StrictOverlapAxis p.x q.x ∧ StrictOverlapAxis p.y q.y) ∧
    (∀ p q : Position,
        (p.x = q.x + TILE_SIZE ∨ q.x = p.x + TILE_SIZE ∨
         p.y = q.y + TILE_SIZE ∨ q.y = p.y + TILE_SIZE) →
        HasCollided p q = false) := by
  constructor
  · intro p q
    simp only [HasCollided, StrictOverlapAxis, decide_eq_true_eq, max_lt_iff,
      lt_min_iff, TILE_SIZE]
    omega
  · intro p q h
    simp only [TILE_SIZE] at h
    simp only [HasCollided, TILE_SIZE]
    rw [decide_eq_false_iff_not]
    omega

/-- Witness for C8: boxes touching along a vertical edge do not collide. -/
theorem c8_collision_strict_overlap_witness : HasCollided ⟨0, 0⟩ ⟨8, 0⟩ = false :=
  c8_collision_strict_overlap.2 ⟨0, 0⟩ ⟨8, 0⟩ (Or.inr (Or.inl (by decide)))

/- ------------------------------------------------------------------ -/
/- Claim C9: Clyde (patroller) target selection                        -/
/- ------------------------------------------------------------------ -/

/-- `Enemy::GetManhattanDist` (src/main.cpp lines 1350-1358). -/
def GetManhattanDist (x0 y0 x1 y1 : Int) : Int :=
  |x0 - x1| + |y0 - y1|

/-- `Enemy::SetTargetClyde` (src/main.cpp lines 1439-1454): chase the player
when farther than 8 tiles (Manhattan, in screen pixels), otherwise retreat
to the corner point (0, HEIGHT * TILE_SIZE). -/
def SetTargetClyde (pos playerPos : Position) : Position :=
  if GetManhattanDist pos.x pos.y playerPos.x playerPos.y > 8 * TILE_SIZE then
    playerPos
  else
    ⟨0, HEIGHT * TILE_SIZE⟩

/-- Modelled from the spec's words for C9: the screen position of a tile. -/
def TileToScreen (t : Position) : Position :=
  ⟨t.x * TILE_SIZE, t.y * TILE_SIZE⟩

/-- Claim C9: on every Clyde target selection, if the Manhattan distance to
the player exceeds 8 tiles the target is the player's exact position, and
otherwise it is the screen position of the retreat corner tile (0, HEIGHT). -/
theorem c9_clyde_target : ∀ pos playerPos : Position,
    (GetManhattanDist pos.x pos.y playerPos.x playerPos.y > 8 * TILE_SIZE →
       SetTargetClyde pos playerPos = playerPos) ∧
    (¬ GetManhattanDist pos.x pos.y playerPos.x playerPos.y > 8 * TILE_SIZE →
       SetTargetClyde pos playerPos = TileToScreen ⟨0, HEIGHT⟩) := by
  intro pos playerPos
  constructor
  · intro h
    simp [SetTargetClyde, h]
  · intro h
    simp [SetTargetClyde, h, TileToScreen]

/-- Witness for C9: a far-away Clyde targets the player's exact position. -/
theorem c9_clyde_target_witness : SetTargetClyde ⟨0, 0⟩ ⟨200, 0⟩ = ⟨200, 0⟩ :=
  (c9_clyde_target ⟨0, 0⟩ ⟨200, 0⟩).1 (by decide)

/- ------------------------------------------------------------------ -/
/- Player model (src/main.cpp lines 989-1184)                          -/
/- ------------------------------------------------------------------ -/

/-- The touchscreen sample consumed by the player (`TS_State`): whether a
touch was detected and its calibrated coordinates. -/
structure Touch where
  touchDetected : Bool
  touchX : Int
  touchY : Int
deriving DecidableEq, Repr

/-- State of the `Player` object relevant to game logic (src/main.cpp lines
989-1019): position, `_nextDir`, `lastDir`, `_score`, `_lives`, `_level`,
and the cosmetic `_mouthOpen` flag. -/
structure PlayerState where
  position : Position
  nextDir : Nat
  lastDir : Nat
  score : Int
  lives : Int
  level : Int
  mouthOpen : Bool
deriving DecidableEq, Repr

/-- `Player::SetDirection` (src/main.cpp lines 1044-1084): derive the new
`_nextDir` from the touch sample; without a touch, `_nextDir` is unchanged. -/
def SetDirection (pos : Position) (nextDir : Nat) (ts : Touch) : Nat :=
  if ts.touchDetected then
    let xDiff := pos.x - ts.touchX
    let yDiff := pos.y - ts.touchY
    if |xDiff| ≥ |yDiff| then
      if xDiff < 0 then EAST else WEST
    else
      if yDiff < 0 then SOUTH else NORTH
  else
    nextDir

/-- The level-completion check and mouth toggle ending the PLAY branch of
`Player::Update` (src/main.cpp lines 1158-1164). -/
def playerLevelCheck (st : PlayerState) (m : Maze) (nextGameState : Nat) :
    PlayerState × Maze × Nat :=
  if st.score = m.maxPellets * st.level then
    ({ st with level := st.level + 1, mouthOpen := !st.mouthOpen }, m, NEXT_LEVEL)
  else
    ({ st with mouthOpen := !st.mouthOpen }, m, nextGameState)

/-- The PLAY branch of `Player::Update` (src/main.cpp lines 1140-1166):
push the current position on the redraw stack, read the touch direction,
move along `_nextDir` if passable (adopting it and clearing `_nextDir`),
else along `lastDir` if passable, collecting a pellet at the new position;
finally the level-completion check.  Result is `none` when the movement
query is made with a non-cardinal direction (undefined behaviour in the
source: the sample points are read uninitialized). -/
def playerUpdatePlay (m : Maze) (st : PlayerState) (ts : Touch)
    (nextGameState : Nat) : Option (PlayerState × Maze × Nat) :=
  let m1 := { m with redrawStack := st.position :: m.redrawStack }
  let nd := SetDirection st.position st.nextDir ts
  match m1.IsFloorAdjacentScreenPosOpt st.position nd with
  | none => none
  | some true =>
      let pos := UpdatePosition st.position nd
      let removed := m1.TryRemovePelletScreenPos pos
      some (playerLevelCheck
        { st with position := pos, score := st.score + (if removed.1 then 1 else 0),
                  lastDir := nd, nextDir := 0x0 }
        removed.2 nextGameState)
  | some false =>
      match m1.IsFloorAdjacentScreenPosOpt st.position st.lastDir with
      | none => none
      | some true =>
          let pos := UpdatePosition st.position st.lastDir
          let removed := m1.TryRemovePelletScreenPos pos
          some (playerLevelCheck
            { st with position := pos, score := st.score + (if removed.1 then 1 else 0) }
            removed.2 nextGameState)
      | some false => some (playerLevelCheck st m1 nextGameState)

/-- `maxPellets` is set once at construction and never changed by pellet
removal. -/
theorem tryRemovePellet_maxPellets (m : Maze) (x y : Int) :
    ((m.TryRemovePellet x y).2).maxPellets = m.maxPellets := by
  by_cases h : m.IsPellet x y <;> simp [Maze.TryRemovePellet, h]

/-- Every successful PLAY-branch player update ends in `playerLevelCheck`
applied to a state with the incoming level and a maze with the incoming
`maxPellets`. -/
theorem playerUpdatePlay_shape (m : Maze) (st : PlayerState) (ts : Touch) (g : Nat)
    (res : PlayerState × Maze × Nat) (h : playerUpdatePlay m st ts g = some res) :
    ∃ (stMid : PlayerState) (mMid : Maze),
      res = playerLevelCheck stMid mMid g ∧ stMid.level = st.level ∧
      mMid.maxPellets = m.maxPellets := by
  simp only [playerUpdatePlay] at h
  split at h
  · exact absurd h (by simp)
  · refine ⟨_, _, (Option.some.inj h).symm, rfl, ?_⟩
    unfold Maze.TryRemovePelletScreenPos
    rw [tryRemovePellet_maxPellets]
  · split at h
    · exact absurd h (by simp)
    · refine ⟨_, _, (Option.some.inj h).symm, rfl, ?_⟩
      unfold Maze.TryRemovePelletScreenPos
      rw [tryRemovePellet_maxPellets]
    · exact ⟨_, _, (Option.some.inj h).symm, rfl, rfl⟩

/-- Claim C4: in every PLAY-state player update, if the post-movement score
equals `maxPellets * level` then the level is incremented by exactly one and
the staged next state becomes NEXT_LEVEL; otherwise the check leaves both
the level and the staged state unchanged. -/
theorem c4_level_completion : ∀ (m : Maze) (st : PlayerState) (ts : Touch) (g : Nat)
    (st1 : PlayerState) (m1 : Maze) (g1 : Nat),
    playerUpdatePlay m st ts g = some (st1, m1, g1) →
    (st1.score = m.maxPellets * st.level → st1.level = st.level + 1 ∧ g1 = NEXT_LEVEL) ∧
    (st1.score ≠ m.maxPellets * st.level → st1.level = st.level ∧ g1 = g) := by
  intro m st ts g st1 m1 g1 h
  obtain ⟨stMid, mMid, hres, hlev, hmax⟩ := playerUpdatePlay_shape m st ts g _ h
  unfold playerLevelCheck at hres
  by_cases hc : stMid.score = mMid.maxPellets * stMid.level
  · rw [if_pos hc] at hres
    simp only [Prod.mk.injEq] at hres
    obtain ⟨h1, h2, h3⟩ := hres
    subst h1
    subst h2
    subst h3
    constructor
    · intro _
      refine ⟨?_, rfl⟩
      show stMid.level + 1 = st.level + 1
      rw [hlev]
    · intro hne
      exfalso
      apply hne
      show stMid.score = m.maxPellets * st.level
      rw [hc, hmax, hlev]
  · rw [if_neg hc] at hres
    simp only [Prod.mk.injEq] at hres
    obtain ⟨h1, h2, h3⟩ := hres
    subst h1
    subst h2
    subst h3
    constructor
    · intro heq
      exfalso
      apply hc
      have heq2 : stMid.score = m.maxPellets * st.level := heq
      rw [heq2, hmax, hlev]
    · intro _
      refine ⟨?_, rfl⟩
      show stMid.level = st.level
      exact hlev

/-- A touch sample with no touch detected. -/
def noTouch : Touch := { touchDetected := false, touchX := 0, touchY := 0 }

/-- A concrete maze state used for witnesses: classic layout and pellets. -/
def mazeW : Maze :=
  { maze := classicMazeRows, pellets := classicPelletRows,
    redrawStack := [], maxPellets := 240 }

/-- A concrete player state on a floor tile of the classic maze, about to
move EAST. -/
def pStart : PlayerState :=
  { position := ⟨8, 16⟩, nextDir := EAST, lastDir := EAST,
    score := 0, lives := 10, level := 1, mouthOpen := false }

/-- The result of one PLAY-branch player update from `pStart`. -/
def pTick1 : PlayerState × Maze × Nat :=
  (playerUpdatePlay mazeW pStart noTouch PLAY).getD (pStart, mazeW, 0)

/-- Witness for C4: a concrete PLAY update whose post-movement score misses
the threshold leaves level and staged state unchanged. -/
theorem c4_level_completion_witness :
    pTick1.1.level = pStart.level ∧ pTick1.2.2 = PLAY :=
  (c4_level_completion mazeW pStart noTouch PLAY pTick1.1 pTick1.2.1 pTick1.2.2
    (by decide)).2 (by decide)

/- ------------------------------------------------------------------ -/
/- Claim C10: uninitialized sample points and the reachable 0x0 call   -/
/- ------------------------------------------------------------------ -/

/-- Claim C10: the sample points of the movement-validity primitive are
assigned exactly when the direction is one of the four cardinal constants
(anything else reads them uninitialized, modelled as `none`), and the PLAY
branch of the player update reaches a call with direction 0x0: one update
that adopts `nextDir` clears it to 0x0, and the following update with no
touch sample hands 0x0 to the query, hitting the undefined case. -/
theorem c10_noncardinal_direction :
    (∀ (p : Position) (d : Nat),
        (IsFloorAdjacentScreenPosPts p d).isSome = true ↔
          (d = NORTH ∨ d = EAST ∨ d = SOUTH ∨ d = WEST)) ∧
    ((playerUpdatePlay mazeW pStart noTouch PLAY).isSome = true ∧
     pTick1.1.nextDir = 0x0 ∧
     playerUpdatePlay pTick1.2.1 pTick1.1 noTouch pTick1.2.2 = none) := by
  constructor
  · intro p d
    unfold IsFloorAdjacentScreenPosPts
    split_ifs <;> simp [*]
  · refine ⟨by decide, by decide, by decide⟩

/- ------------------------------------------------------------------ -/
/- Enemy model (src/main.cpp lines 1231-1609)                          -/
/- ------------------------------------------------------------------ -/

/-- `Enemy::GetDistanceSq` (src/main.cpp lines 1360-1363). -/
def GetDistanceSq (x0 y0 x1 y1 : Int) : Int :=
  ((x0 - x1) * (x0 - x1)) + ((y0 - y1) * (y0 - y1))

/-- `Enemy::GetDistanceSq` with a `Position` target (src/main.cpp lines
1365-1368). -/
def GetDistanceSqP (x0 y0 : Int) (target : Position) : Int :=
  GetDistanceSq x0 y0 target.x target.y

/-- State of an `Enemy` object relevant to game logic (src/main.cpp lines
1231-1253): position, `_target`, `_lastDir`, `_nextDir`, `_aiType` and the
cosmetic `_imageA` flag.  The anchor (`_blinky`) position and the player are
passed as parameters of the update. -/
structure EnemyState where
  position : Position
  target : Position
  lastDir : Nat
  nextDir : Nat
  aiType : Nat
  imageA : Bool
deriving DecidableEq, Repr

/-- `Enemy::SetTargetToPlayer` (src/main.cpp lines 1370-1373). -/
def SetTargetToPlayer (playerPos : Position) : Position :=
  playerPos

/-- `Enemy::SetTargetInfrontOfPlayer` (src/main.cpp lines 1375-1401): four
tiles ahead of the player along the player's `lastDir`; an unrecognized
direction leaves the old target. -/
def SetTargetInfrontOfPlayer (playerPos : Position) (playerLastDir : Nat)
    (old : Position) : Position :=
  if playerLastDir = NORTH then ⟨playerPos.x, playerPos.y - 4 * TILE_SIZE⟩
  else if playerLastDir = EAST then ⟨playerPos.x + 4 * TILE_SIZE, playerPos.y⟩
  else if playerLastDir = SOUTH then ⟨playerPos.x, playerPos.y + 4 * TILE_SIZE⟩
  else if playerLastDir = WEST then ⟨playerPos.x - 4 * TILE_SIZE, playerPos.y⟩
  else old

/-- `Enemy::SetTargetBlockPlayer` (src/main.cpp lines 1403-1437): two tiles
ahead of the player, then reflected 180 degrees about the anchor position. -/
def SetTargetBlockPlayer (playerPos : Position) (playerLastDir : Nat)
    (blinkyPos : Position) (old : Position) : Position :=
  let t :=
    if playerLastDir = NORTH then (⟨playerPos.x, playerPos.y - 2 * TILE_SIZE⟩ : Position)
    else if playerLastDir = EAST then ⟨playerPos.x + 2 * TILE_SIZE, playerPos.y⟩
    else if playerLastDir = SOUTH then ⟨playerPos.x, playerPos.y + 2 * TILE_SIZE⟩
    else if playerLastDir = WEST then ⟨playerPos.x - 2 * TILE_SIZE, playerPos.y⟩
    else old
  ⟨t.x + (t.x - blinkyPos.x), t.y + (t.y - blinkyPos.y)⟩

/-- `Enemy::SetTarget` (src/main.cpp lines 1456-1474): dispatch on the AI
variant; an unrecognized variant leaves the old target. -/
def SetTarget (e : EnemyState) (playerPos : Position) (playerLastDir : Nat)
    (blinkyPos : Position) : Position :=
  if e.aiType = BLINKY_AI then SetTargetToPlayer playerPos
  else if e.aiType = PINKY_AI then SetTargetInfrontOfPlayer playerPos playerLastDir e.target
  else if e.aiType = INKY_AI then SetTargetBlockPlayer playerPos playerLastDir blinkyPos e.target
  else if e.aiType = CLYDE_AI then SetTargetClyde e.position playerPos
  else e.target

/-- The fixed priority array `dirs` of `Enemy::GetNextDir`
(src/main.cpp line 1490): North, South, East, West. -/
def dirsArr : List Nat := [NORTH, SOUTH, EAST, WEST]

/-- The reverse of a cardinal direction (the direction excluded by the
no-reversal rule of `Enemy::GetNextDir`, src/main.cpp lines 1479-1482). -/
def reverseDir (d : Nat) : Nat :=
  if d = NORTH then SOUTH
  else if d = SOUTH then NORTH
  else if d = EAST then WEST
  else if d = WEST then EAST
  else 0x0

/-- A direction is a movement candidate for an agent: it is not the reverse
of `_lastDir` and the adjacent screen position in that direction is floor
(the four booleans of src/main.cpp lines 1479-1482). -/
def EnemyCand (m : Maze) (pos : Position) (lastDir d : Nat) : Bool :=
  (lastDir != reverseDir d) && m.IsFloorAdjacentScreenPos pos d

/-- `Enemy::GetNextDir` (src/main.cpp lines 1476-1540): greedy choice of the
next direction.  The loop keeps a running `(smallestValue, smallestIndex)`
pair with -1 as the "no score yet" sentinel; the unused `dists` array of the
source is omitted. -/
def GetNextDir (m : Maze) (pos : Position) (lastDir : Nat) (target : Position) : Nat :=
  let north := (lastDir != SOUTH) && m.IsFloorAdjacentScreenPos pos NORTH
  let east := (lastDir != WEST) && m.IsFloorAdjacentScreenPos pos EAST
  let south := (lastDir != NORTH) && m.IsFloorAdjacentScreenPos pos SOUTH
  let west := (lastDir != EAST) && m.IsFloorAdjacentScreenPos pos WEST
  let r := [0, 1, 2, 3].foldl (fun (acc : Int × Nat) (i : Nat) =>
    let dir := dirsArr.getD i 0
    let d : Int :=
      if north && (dir == NORTH) then GetDistanceSqP pos.x (pos.y - 1) target
      else if east && (dir == EAST) then GetDistanceSqP (pos.x + 1) pos.y target
      else if south && (dir == SOUTH) then GetDistanceSqP pos.x (pos.y + 1) target
      else if west && (dir == WEST) then GetDistanceSqP (pos.x - 1) pos.y target
      else -1
    if d ≠ -1 ∧ (d < acc.1 ∨ acc.1 = -1) then (d, i) else acc) ((-1 : Int), (0 : Nat))
  dirsArr.getD r.2 0

/-- The PLAY branch of `Enemy::Update` (src/main.cpp lines 1584-1601): push
the current position on the redraw stack, select the target, choose the
next direction, move, record `_lastDir`, and stage DEAD on collision with
the player. -/
def enemyUpdatePlay (m : Maze) (player : PlayerState) (blinkyPos : Position)
    (e : EnemyState) (nextGameState : Nat) : EnemyState × Maze × Nat :=
  let m1 := { m with redrawStack := e.position :: m.redrawStack }
  let target := SetTarget e player.position player.lastDir blinkyPos
  let nd := GetNextDir m1 e.position e.lastDir target
  let pos := UpdatePosition e.position nd
  let g := if HasCollided pos player.position then DEAD else nextGameState
  ({ e with position := pos, target := target, nextDir := nd, lastDir := nd,
            imageA := !e.imageA }, m1, g)

/- ------------------------------------------------------------------ -/
/- Claims C1 / C2: agent PLAY update                                   -/
/- ------------------------------------------------------------------ -/

/-- The adjacency query ignores the redraw stack. -/
theorem isFloorAdjacent_redraw (m : Maze) (l : List Position) (p : Position) (d : Nat) :
    Maze.IsFloorAdjacentScreenPos { m with redrawStack := l } p d =
      m.IsFloorAdjacentScreenPos p d := rfl

/-- With no candidate direction, the selection loop of `GetNextDir` never
updates `(smallestValue, smallestIndex)`, so the result is `dirs[0]`,
that is NORTH. -/
theorem getNextDir_no_candidate (m : Maze) (pos : Position) (lastDir : Nat)
    (target : Position)
    (hN : EnemyCand m pos lastDir NORTH = false)
    (hE : EnemyCand m pos lastDir EAST = false)
    (hS : EnemyCand m pos lastDir SOUTH = false)
    (hW : EnemyCand m pos lastDir WEST = false) :
    GetNextDir m pos lastDir target = NORTH := by
  have hN' : ((lastDir != SOUTH) && m.IsFloorAdjacentScreenPos pos NORTH) = false := hN
  have hE' : ((lastDir != WEST) && m.IsFloorAdjacentScreenPos pos EAST) = false := hE
  have hS' : ((lastDir != NORTH) && m.IsFloorAdjacentScreenPos pos SOUTH) = false := hS
  have hW' : ((lastDir != EAST) && m.IsFloorAdjacentScreenPos pos WEST) = false := hW
  simp [GetNextDir, hN', hE', hS', hW', dirsArr]

/-- Counterexample to claim C1 as stated: a boxed-in agent (lastDir NORTH at
screen position (8,8) of the classic maze, where NORTH, EAST and WEST all
fail the adjacency check) does not keep its previous `nextDir` and does not
stay put: `nextDir` becomes NORTH (`dirs[0]`) and the agent moves one pixel
north. -/
theorem c1_counterexample :
    (mazeW.IsFloorAdjacentScreenPos ⟨8, 8⟩ NORTH = false ∧
     mazeW.IsFloorAdjacentScreenPos ⟨8, 8⟩ EAST = false ∧
     mazeW.IsFloorAdjacentScreenPos ⟨8, 8⟩ WEST = false) ∧
    ((enemyUpdatePlay mazeW pStart ⟨0, 0⟩
        ⟨⟨8, 8⟩, ⟨0, 0⟩, NORTH, SOUTH, BLINKY_AI, true⟩ PLAY).1.nextDir ≠ SOUTH ∧
     (enemyUpdatePlay mazeW pStart ⟨0, 0⟩
        ⟨⟨8, 8⟩, ⟨0, 0⟩, NORTH, SOUTH, BLINKY_AI, true⟩ PLAY).1.position ≠ ⟨8, 8⟩) := by
  decide

/-- Claim C1 (amended): when no direction is a candidate, the agent's
`nextDir` is set to NORTH (the first entry of the fixed priority array,
regardless of its previous value) and its position still changes by the
one-pixel NORTH move (with the usual horizontal wrap). -/
theorem c1_no_candidate_moves_north :
    ∀ (m : Maze) (player : PlayerState) (blinkyPos : Position) (e : EnemyState) (g : Nat),
    EnemyCand m e.position e.lastDir NORTH = false →
    EnemyCand m e.position e.lastDir EAST = false →
    EnemyCand m e.position e.lastDir SOUTH = false →
    EnemyCand m e.position e.lastDir WEST = false →
    (enemyUpdatePlay m player blinkyPos e g).1.nextDir = NORTH ∧
    (enemyUpdatePlay m player blinkyPos e g).1.position = UpdatePosition e.position NORTH := by
  intro m player blinkyPos e g hN hE hS hW
  have hnd : GetNextDir { m with redrawStack := e.position :: m.redrawStack }
      e.position e.lastDir (SetTarget e player.position player.lastDir blinkyPos) = NORTH :=
    getNextDir_no_candidate _ _ _ _ hN hE hS hW
  constructor
  · exact hnd
  · show UpdatePosition e.position (GetNextDir _ e.position e.lastDir _) = _
    rw [hnd]

/-- Witness for the amended C1 at the boxed-in concrete state. -/
theorem c1_no_candidate_moves_north_witness :
    (enemyUpdatePlay mazeW pStart ⟨0, 0⟩
        ⟨⟨8, 8⟩, ⟨0, 0⟩, NORTH, SOUTH, BLINKY_AI, true⟩ PLAY).1.nextDir = NORTH ∧
    (enemyUpdatePlay mazeW pStart ⟨0, 0⟩
        ⟨⟨8, 8⟩, ⟨0, 0⟩, NORTH, SOUTH, BLINKY_AI, true⟩ PLAY).1.position =
      UpdatePosition ⟨8, 8⟩ NORTH :=
  c1_no_candidate_moves_north mazeW pStart ⟨0, 0⟩
    ⟨⟨8, 8⟩, ⟨0, 0⟩, NORTH, SOUTH, BLINKY_AI, true⟩ PLAY
    (by decide) (by decide) (by decide) (by decide)

/-- Counterexample to claim C2 as stated: the position pushed onto the
redraw stack is the pre-move position, not the post-move one.  At screen
position (8,16) of the classic maze the agent does move (EAST is passable),
yet the pushed entry is the old position. -/
theorem c2_counterexample :
    ((enemyUpdatePlay mazeW pStart ⟨0, 0⟩
        ⟨⟨8, 16⟩, ⟨0, 0⟩, 0x0, 0x0, BLINKY_AI, true⟩ PLAY).2.1.redrawStack.head? =
      some ⟨8, 16⟩) ∧
    (enemyUpdatePlay mazeW pStart ⟨0, 0⟩
        ⟨⟨8, 16⟩, ⟨0, 0⟩, 0x0, 0x0, BLINKY_AI, true⟩ PLAY).1.position ≠ ⟨8, 16⟩ := by
  decide

/-- Claim C2 (amended): in every PLAY-state agent update the position pushed
onto the shared redraw stack is the agent's position from before the move of
that tick, and the staged next game state is DEAD exactly when the post-move
position collides with the player, otherwise it is left unchanged. -/
theorem c2_redraw_and_collision :
    ∀ (m : Maze) (player : PlayerState) (blinkyPos : Position) (e : EnemyState) (g : Nat),
    (enemyUpdatePlay m player blinkyPos e g).2.1.redrawStack =
      e.position :: m.redrawStack ∧
    (enemyUpdatePlay m player blinkyPos e g).2.2 =
      (if HasCollided (enemyUpdatePlay m player blinkyPos e g).1.position player.position
       then DEAD else g) := by
  intro m player blinkyPos e g
  exact ⟨rfl, rfl⟩

/- ------------------------------------------------------------------ -/
/- Claim C3: greedy direction choice                                   -/
/- ------------------------------------------------------------------ -/

/-- Modelled from the spec's words for C3: the unit step of a cardinal
direction along the x axis. -/
def dirStepX (d : Nat) : Int :=
  if d = EAST then 1 else if d = WEST then -1 else 0

/-- Modelled from the spec's words for C3: the unit step of a cardinal
direction along the y axis (NORTH decreases y on screen). -/
def dirStepY (d : Nat) : Int :=
  if d = NORTH then -1 else if d = SOUTH then 1 else 0

/-- Modelled from the spec's words for C3: the score of a candidate is the
squared Euclidean distance from the tile one step (TILE_SIZE pixels) in that
direction to the target. -/
def SpecTileScore (pos target : Position) (d : Nat) : Int :=
  GetDistanceSq (pos.x + TILE_SIZE * dirStepX d) (pos.y + TILE_SIZE * dirStepY d)
    target.x target.y

/-- Modelled from the spec's words for C3: evaluate the candidates in the
fixed order of `dirsArr` (North, South, East, West) and keep the first
candidate whose score is strictly smaller than the current best (a later
equal score never replaces the current best). -/
def FirstMinChoice (cand : Nat → Bool) (score : Nat → Int) : Option Nat :=
  dirsArr.foldl (fun acc d =>
    match acc with
    | none => if cand d = true then some d else none
    | some b => if cand d = true ∧ score d < score b then some d else some b) none

/-- The selection loop of `Enemy::GetNextDir` abstracted over the four
candidate flags and the four scores; returns `smallestIndex`. -/
def codeFoldIdx (bN bS bE bW : Bool) (sN sS sE sW : Int) : Nat :=
  ([0, 1, 2, 3].foldl (fun (acc : Int × Nat) (i : Nat) =>
    let dir := dirsArr.getD i 0
    let d : Int :=
      if bN && (dir == NORTH) then sN
      else if bE && (dir == EAST) then sE
      else if bS && (dir == SOUTH) then sS
      else if bW && (dir == WEST) then sW
      else -1
    if d ≠ -1 ∧ (d < acc.1 ∨ acc.1 = -1) then (d, i) else acc) ((-1 : Int), (0 : Nat))).2

/-- `GetNextDir` is the abstracted selection loop applied to the concrete
candidate flags and one-pixel-step scores. -/
theorem getNextDir_eq_codeFoldIdx (m : Maze) (pos : Position) (lastDir : Nat)
    (target : Position) :
    GetNextDir m pos lastDir target =
      dirsArr.getD (codeFoldIdx
        (EnemyCand m pos lastDir NORTH) (EnemyCand m pos lastDir SOUTH)
        (EnemyCand m pos lastDir EAST) (EnemyCand m pos lastDir WEST)
        (GetDistanceSqP pos.x (pos.y - 1) target)
        (GetDistanceSqP pos.x (pos.y + 1) target)
        (GetDistanceSqP (pos.x + 1) pos.y target)
        (GetDistanceSqP (pos.x - 1) pos.y target)) 0 := rfl

/-- Comparing squared distances of two probe points at a common step length
`s` from the current position only depends on the direction of the target,
not on `s`: the comparison reduces to a comparison of dot products. -/
theorem distSq_nbr_lt_iff (px py tx ty s ux uy vx vy : Int) (hs : 0 < s)
    (hu : ux * ux + uy * uy = vx * vx + vy * vy) :
    (GetDistanceSq (px + s * ux) (py + s * uy) tx ty <
       GetDistanceSq (px + s * vx) (py + s * vy) tx ty) ↔
      ((px - tx) * ux + (py - ty) * uy < (px - tx) * vx + (py - ty) * vy) := by
  have hdiff : GetDistanceSq (px + s * ux) (py + s * uy) tx ty -
      GetDistanceSq (px + s * vx) (py + s * vy) tx ty =
      2 * s * (((px - tx) * ux + (py - ty) * uy) - ((px - tx) * vx + (py - ty) * vy)) := by
    simp only [GetDistanceSq]
    linear_combination s * s * hu
  have h2s : (0 : Int) < 2 * s := by linarith
  constructor
  · intro h
    have hAB := sub_neg.mpr h
    rw [hdiff] at hAB
    rcases mul_neg_iff.mp hAB with ⟨_, hD⟩ | ⟨hneg, _⟩
    · exact sub_neg.mp hD
    · linarith
  · intro h
    have hD := mul_neg_of_pos_of_neg h2s (sub_neg.mpr h)
    rw [← hdiff] at hD
    exact sub_neg.mp hD

/-- The probe-score comparison is invariant under the step length. -/
theorem scale_free_lt_iff (px py tx ty ux uy vx vy s1 s2 : Int)
    (h1 : 0 < s1) (h2 : 0 < s2)
    (hu : ux * ux + uy * uy = vx * vx + vy * vy) :
    (GetDistanceSq (px + s1 * ux) (py + s1 * uy) tx ty <
       GetDistanceSq (px + s1 * vx) (py + s1 * vy) tx ty) ↔
    (GetDistanceSq (px + s2 * ux) (py + s2 * uy) tx ty <
       GetDistanceSq (px + s2 * vx) (py + s2 * vy) tx ty) :=
  (distSq_nbr_lt_iff px py tx ty s1 ux uy vx vy h1 hu).trans
    (distSq_nbr_lt_iff px py tx ty s2 ux uy vx vy h2 hu).symm

set_option maxHeartbeats 4000000

/-- The first-strict-minimum scan over North, South, East, West agrees with
the sentinel-based selection loop of the source whenever the two score
assignments are order-equivalent, all loop scores are nonnegative, and at
least one candidate exists. -/
theorem pick_agree (cand : Nat → Bool) (score : Nat → Int)
    (bN bS bE bW : Bool) (sN sS sE sW : Int)
    (hbN : cand NORTH = bN) (hbS : cand SOUTH = bS)
    (hbE : cand EAST = bE) (hbW : cand WEST = bW)
    (hnN : 0 ≤ sN) (hnS : 0 ≤ sS) (hnE : 0 ≤ sE) (hnW : 0 ≤ sW)
    (eSN : sS < sN ↔ score SOUTH < score NORTH)
    (eEN : sE < sN ↔ score EAST < score NORTH)
    (eES : sE < sS ↔ score EAST < score SOUTH)
    (eWN : sW < sN ↔ score WEST < score NORTH)
    (eWS : sW < sS ↔ score WEST < score SOUTH)
    (eWE : sW < sE ↔ score WEST < score EAST)
    (hex : bN = true ∨ bS = true ∨ bE = true ∨ bW = true) :
    FirstMinChoice cand score =
      some (dirsArr.getD (codeFoldIdx bN bS bE bW sN sS sE sW) 0) := by
  simp only [NORTH, SOUTH, EAST, WEST] at eSN eEN eES eWN eWS eWE hbN hbS hbE hbW
  have hneN : sN ≠ -1 := by omega
  have hneS : sS ≠ -1 := by omega
  have hneE : sE ≠ -1 := by omega
  have hneW : sW ≠ -1 := by omega
  cases bN <;> cases bS <;> cases bE <;> cases bW
  · simp at hex
  · simp [FirstMinChoice, codeFoldIdx, dirsArr, List.foldl, List.getD,
      hbN, hbS, hbE, hbW, hneN, hneS, hneE, hneW, NORTH, SOUTH, EAST, WEST]
  · simp [FirstMinChoice, codeFoldIdx, dirsArr, List.foldl, List.getD,
      hbN, hbS, hbE, hbW, hneN, hneS, hneE, hneW, NORTH, SOUTH, EAST, WEST]
  · by_cases hWE : sW < sE <;> simp [FirstMinChoice, codeFoldIdx, dirsArr, List.foldl, List.getD,
      hbN, hbS, hbE, hbW, hneN, hneS, hneE, hneW, NORTH, SOUTH, EAST, WEST, hWE, ← eWE]
  · simp [FirstMinChoice, codeFoldIdx, dirsArr, List.foldl, List.getD,
      hbN, hbS, hbE, hbW, hneN, hneS, hneE, hneW, NORTH, SOUTH, EAST, WEST]
  · by_cases hWS : sW < sS <;> simp [FirstMinChoice, codeFoldIdx, dirsArr, List.foldl, List.getD,
      hbN, hbS, hbE, hbW, hneN, hneS, hneE, hneW, NORTH, SOUTH, EAST, WEST, hWS, ← eWS]
  · by_cases hES : sE < sS <;> simp [FirstMinChoice, codeFoldIdx, dirsArr, List.foldl, List.getD,
      hbN, hbS, hbE, hbW, hneN, hneS, hneE, hneW, NORTH, SOUTH, EAST, WEST, hES, ← eES]
  · by_cases hES : sE < sS <;> by_cases hWS : sW < sS <;> by_cases hWE : sW < sE <;>
      simp [FirstMinChoice, codeFoldIdx, dirsArr, List.foldl, List.getD,
      hbN, hbS, hbE, hbW, hneN, hneS, hneE, hneW, NORTH, SOUTH, EAST, WEST,
      hES, hWS, hWE, ← eES, ← eWS, ← eWE]
  · simp [FirstMinChoice, codeFoldIdx, dirsArr, List.foldl, List.getD,
      hbN, hbS, hbE, hbW, hneN, hneS, hneE, hneW, NORTH, SOUTH, EAST, WEST]
  · by_cases hWN : sW < sN <;> simp [FirstMinChoice, codeFoldIdx, dirsArr, List.foldl, List.getD,
      hbN, hbS, hbE, hbW, hneN, hneS, hneE, hneW, NORTH, SOUTH, EAST, WEST, hWN, ← eWN]
  · by_cases hEN : sE < sN <;> simp [FirstMinChoice, codeFoldIdx, dirsArr, List.foldl, List.getD,
      hbN, hbS, hbE, hbW, hneN, hneS, hneE, hneW, NORTH, SOUTH, EAST, WEST, hEN, ← eEN]
  · by_cases hEN : sE < sN <;> by_cases hWN : sW < sN <;> by_cases hWE : sW < sE <;>
      simp [FirstMinChoice, codeFoldIdx, dirsArr, List.foldl, List.getD,
      hbN, hbS, hbE, hbW, hneN, hneS, hneE, hneW, NORTH, SOUTH, EAST, WEST,
      hEN, hWN, hWE, ← eEN, ← eWN, ← eWE]
  · by_cases hSN : sS < sN <;> simp [FirstMinChoice, codeFoldIdx, dirsArr, List.foldl, List.getD,
      hbN, hbS, hbE, hbW, hneN, hneS, hneE, hneW, NORTH, SOUTH, EAST, WEST, hSN, ← eSN]
  · by_cases hSN : sS < sN <;> by_cases hWN : sW < sN <;> by_cases hWS : sW < sS <;>
      simp [FirstMinChoice, codeFoldIdx, dirsArr, List.foldl, List.getD,
      hbN, hbS, hbE, hbW, hneN, hneS, hneE, hneW, NORTH, SOUTH, EAST, WEST,
      hSN, hWN, hWS, ← eSN, ← eWN, ← eWS]
  · by_cases hSN : sS < sN <;> by_cases hEN : sE < sN <;> by_cases hES : sE < sS <;>
      simp [FirstMinChoice, codeFoldIdx, dirsArr, List.foldl, List.getD,
      hbN, hbS, hbE, hbW, hneN, hneS, hneE, hneW, NORTH, SOUTH, EAST, WEST,
      hSN, hEN, hES, ← eSN, ← eEN, ← eES]
  · by_cases hSN : sS < sN <;> by_cases hEN : sE < sN <;> by_cases hES : sE < sS <;>
      by_cases hWN : sW < sN <;> by_cases hWS : sW < sS <;> by_cases hWE : sW < sE <;>
      simp [FirstMinChoice, codeFoldIdx, dirsArr, List.foldl, List.getD,
      hbN, hbS, hbE, hbW, hneN, hneS, hneE, hneW, NORTH, SOUTH, EAST, WEST,
      hSN, hEN, hES, hWN, hWS, hWE, ← eSN, ← eEN, ← eES, ← eWN, ← eWS, ← eWE]

/-- Claim C3: whenever at least one direction is an admissible candidate,
the direction chosen by `GetNextDir` is the one selected by scanning the
candidates in the fixed order North, South, East, West, scoring each as the
squared Euclidean distance from the tile one step in that direction to the
target, and keeping the strictly smallest score (first-seen wins on ties). -/
theorem c3_greedy_choice : ∀ (m : Maze) (pos : Position) (lastDir : Nat) (target : Position),
    (EnemyCand m pos lastDir NORTH = true ∨ EnemyCand m pos lastDir SOUTH = true ∨
     EnemyCand m pos lastDir EAST = true ∨ EnemyCand m pos lastDir WEST = true) →
    FirstMinChoice (EnemyCand m pos lastDir) (SpecTileScore pos target) =
      some (GetNextDir m pos lastDir target) := by
  intro m pos lastDir target hex
  rw [getNextDir_eq_codeFoldIdx]
  have pN : GetDistanceSqP pos.x (pos.y - 1) target =
      GetDistanceSq (pos.x + 1 * 0) (pos.y + 1 * (-1)) target.x target.y := by
    simp only [GetDistanceSqP, GetDistanceSq]
    ring
  have pS : GetDistanceSqP pos.x (pos.y + 1) target =
      GetDistanceSq (pos.x + 1 * 0) (pos.y + 1 * 1) target.x target.y := by
    simp only [GetDistanceSqP, GetDistanceSq]
    ring
  have pE : GetDistanceSqP (pos.x + 1) pos.y target =
      GetDistanceSq (pos.x + 1 * 1) (pos.y + 1 * 0) target.x target.y := by
    simp only [GetDistanceSqP, GetDistanceSq]
    ring
  have pW : GetDistanceSqP (pos.x - 1) pos.y target =
      GetDistanceSq (pos.x + 1 * (-1)) (pos.y + 1 * 0) target.x target.y := by
    simp only [GetDistanceSqP, GetDistanceSq]
    ring
  have tN : SpecTileScore pos target NORTH =
      GetDistanceSq (pos.x + 8 * 0) (pos.y + 8 * (-1)) target.x target.y := by
    simp [SpecTileScore, dirStepX, dirStepY, TILE_SIZE, NORTH, EAST, SOUTH, WEST,
      GetDistanceSq]
  have tS : SpecTileScore pos target SOUTH =
      GetDistanceSq (pos.x + 8 * 0) (pos.y + 8 * 1) target.x target.y := by
    simp [SpecTileScore, dirStepX, dirStepY, TILE_SIZE, NORTH, EAST, SOUTH, WEST,
      GetDistanceSq]
  have tE : SpecTileScore pos target EAST =
      GetDistanceSq (pos.x + 8 * 1) (pos.y + 8 * 0) target.x target.y := by
    simp [SpecTileScore, dirStepX, dirStepY, TILE_SIZE, NORTH, EAST, SOUTH, WEST,
      GetDistanceSq]
  have tW : SpecTileScore pos target WEST =
      GetDistanceSq (pos.x + 8 * (-1)) (pos.y + 8 * 0) target.x target.y := by
    simp [SpecTileScore, dirStepX, dirStepY, TILE_SIZE, NORTH, EAST, SOUTH, WEST,
      GetDistanceSq]
  have nnN : 0 ≤ GetDistanceSqP pos.x (pos.y - 1) target := by
    unfold GetDistanceSqP GetDistanceSq
    exact add_nonneg (mul_self_nonneg _) (mul_self_nonneg _)
  have nnS : 0 ≤ GetDistanceSqP pos.x (pos.y + 1) target := by
    unfold GetDistanceSqP GetDistanceSq
    exact add_nonneg (mul_self_nonneg _) (mul_self_nonneg _)
  have nnE : 0 ≤ GetDistanceSqP (pos.x + 1) pos.y target := by
    unfold GetDistanceSqP GetDistanceSq
    exact add_nonneg (mul_self_nonneg _) (mul_self_nonneg _)
  have nnW : 0 ≤ GetDistanceSqP (pos.x - 1) pos.y target := by
    unfold GetDistanceSqP GetDistanceSq
    exact add_nonneg (mul_self_nonneg _) (mul_self_nonneg _)
  have eSN : (GetDistanceSqP pos.x (pos.y + 1) target <
      GetDistanceSqP pos.x (pos.y - 1) target) ↔
      (SpecTileScore pos target SOUTH < SpecTileScore pos target NORTH) := by
    rw [pS, pN, tS, tN]
    exact scale_free_lt_iff pos.x pos.y target.x target.y 0 1 0 (-1) 1 8
      one_pos (by norm_num) (by norm_num)
  have eEN : (GetDistanceSqP (pos.x + 1) pos.y target <
      GetDistanceSqP pos.x (pos.y - 1) target) ↔
      (SpecTileScore pos target EAST < SpecTileScore pos target NORTH) := by
    rw [pE, pN, tE, tN]
    exact scale_free_lt_iff pos.x pos.y target.x target.y 1 0 0 (-1) 1 8
      one_pos (by norm_num) (by norm_num)
  have eES : (GetDistanceSqP (pos.x + 1) pos.y target <
      GetDistanceSqP pos.x (pos.y + 1) target) ↔
      (SpecTileScore pos target EAST < SpecTileScore pos target SOUTH) := by
    rw [pE, pS, tE, tS]
    exact scale_free_lt_iff pos.x pos.y target.x target.y 1 0 0 1 1 8
      one_pos (by norm_num) (by norm_num)
  have eWN : (GetDistanceSqP (pos.x - 1) pos.y target <
      GetDistanceSqP pos.x (pos.y - 1) target) ↔
      (SpecTileScore pos target WEST < SpecTileScore pos target NORTH) := by
    rw [pW, pN, tW, tN]
    exact scale_free_lt_iff pos.x pos.y target.x target.y (-1) 0 0 (-1) 1 8
      one_pos (by norm_num) (by norm_num)
  have eWS : (GetDistanceSqP (pos.x - 1) pos.y target <
      GetDistanceSqP pos.x (pos.y + 1) target) ↔
      (SpecTileScore pos target WEST < SpecTileScore pos target SOUTH) := by
    rw [pW, pS, tW, tS]
    exact scale_free_lt_iff pos.x pos.y target.x target.y (-1) 0 0 1 1 8
      one_pos (by norm_num) (by norm_num)
  have eWE : (GetDistanceSqP (pos.x - 1) pos.y target <
      GetDistanceSqP (pos.x + 1) pos.y target) ↔
      (SpecTileScore pos target WEST < SpecTileScore pos target EAST) := by
    rw [pW, pE, tW, tE]
    exact scale_free_lt_iff pos.x pos.y target.x target.y (-1) 0 1 0 1 8
      one_pos (by norm_num) (by norm_num)
  exact pick_agree (EnemyCand m pos lastDir) (SpecTileScore pos target)
    (EnemyCand m pos lastDir NORTH) (EnemyCand m pos lastDir SOUTH)
    (EnemyCand m pos lastDir EAST) (EnemyCand m pos lastDir WEST)
    (GetDistanceSqP pos.x (pos.y - 1) target)
    (GetDistanceSqP pos.x (pos.y + 1) target)
    (GetDistanceSqP (pos.x + 1) pos.y target)
    (GetDistanceSqP (pos.x - 1) pos.y target)
    rfl rfl rfl rfl nnN nnS nnE nnW eSN eEN eES eWN eWS eWE hex

/-- Witness for C3 at a concrete junction of the classic maze. -/
theorem c3_greedy_choice_witness :
    FirstMinChoice (EnemyCand mazeW ⟨8, 16⟩ 0x0) (SpecTileScore ⟨8, 16⟩ ⟨100, 100⟩) =
      some (GetNextDir mazeW ⟨8, 16⟩ 0x0 ⟨100, 100⟩) :=
  c3_greedy_choice mazeW ⟨8, 16⟩ 0x0 ⟨100, 100⟩ (by decide)
